import Mathlib

/-!
Verification of the streaming session orchestrator of the `ai-voice-agent`
repository (`src/main.py`, `src/transcriber.py`, `src/persona.py`,
`src/get_current_weather_tool.py`) against its natural-language
specification.

The Python code is shallowly embedded: the external collaborators (the
Gemini language model, the Murf text-to-speech backend, the weather tool,
the AssemblyAI transcription adapter) are modelled as explicit behaviour
parameters, and each orchestrator function (`manage_conversation_history`,
`stream_llm_to_murf_and_client`, `generate_llm_response`, the
`process_transcript` callback and the `websocket_endpoint` message loop)
becomes a pure Lean function over those parameters.  The vendor adapter
construction (`AssemblyAIStreamingTranscriber(...)` at `main.py:419`) is
modelled as succeeding and yielding a fresh adapter handle; wall-clock time
is modelled by an explicit `durationSeconds` argument which a function may
inspect exactly where the source wraps work in a timeout.
-/

namespace VoiceAgent

/-- Role tag of one conversation turn; the `"user"` / `"model"` / `"tool"`
strings used in the `history` dictionaries of `main.py`. -/
inductive Role where
  | user
  | model
  | tool
deriving DecidableEq

/-- Payload of a turn's `parts` field: plain text, a model function-call
request (`main.py:327`), or a tool function response
(`types.Part.from_function_response`, `main.py:345`). -/
inductive Content where
  | text (s : String)
  | functionCall (name : String) (city : Option String)
  | functionResponse (name : String) (result : String)
deriving DecidableEq

/-- One role-tagged entry of a session's conversation history. -/
structure Turn where
  role : Role
  content : Content
deriving DecidableEq

/-- A conversation history: ordered list of turns, oldest first. -/
abbrev History := List Turn

/-- `MAX_HISTORY_LENGTH` constant, `main.py:38`. -/
def MAX_HISTORY_LENGTH : Nat := 50

/-- `API_TIMEOUT_SECONDS` constant, `main.py:41`. -/
def API_TIMEOUT_SECONDS : Nat := 30

/-- `manage_conversation_history` (`main.py:194`): keep only the most recent
`MAX_HISTORY_LENGTH` turns; Python `history[-MAX_HISTORY_LENGTH:]` is
`drop (length - MAX_HISTORY_LENGTH)`. -/
def manage_conversation_history (history : History) : History :=
  if history.length > MAX_HISTORY_LENGTH then
    history.drop (history.length - MAX_HISTORY_LENGTH)
  else history

/-- Outbound messages the server sends over the client websocket
(`websocket.send_text` calls in `main.py`). -/
inductive ClientMsg where
  | user_transcript (data : String)
  | llm_chunk (data : String)
  | llm_end
  | audio (data : String)
  | error (detail : String)
deriving DecidableEq

/-- One event observed by `audio_receiver` (`main.py:147`) on the Murf
socket: a JSON packet (its `audio` field, empty string when absent or
falsy, and its `final` flag), a 30-second receive timeout, the backend
closing the connection, or any other receive error. -/
inductive AudioEvent where
  | packet (audio : String) (final : Bool)
  | timeout
  | connectionClosed
  | recvError
deriving DecidableEq

/-- Behaviour of the Murf text-to-speech backend for one invocation of
`stream_llm_to_murf_and_client`: whether `MURF_API_KEY` is set
(`main.py:126`), whether `websockets.connect` succeeds (`main.py:135`),
which fragment send (counting only non-empty fragments) raises, if any
(`main.py:176`), and the sequence of events the audio receiver observes. -/
structure MurfBehavior where
  apiKeyPresent : Bool
  connectOk : Bool
  sendFailsAt : Option Nat
  audioEvents : List AudioEvent
deriving DecidableEq

/-- `audio_receiver` (`main.py:147`): forward each non-empty `audio` field
to the client, stop after a packet flagged `final`, and stop on timeout,
connection close, or any receive error. -/
def audio_receiver : List AudioEvent → List ClientMsg
  | [] => []
  | AudioEvent.packet a final :: rest =>
      (if a ≠ "" then [ClientMsg.audio a] else []) ++
        (if final then [] else audio_receiver rest)
  | AudioEvent.timeout :: _ => []
  | AudioEvent.connectionClosed :: _ => []
  | AudioEvent.recvError :: _ => []

/-- The sending loop of `stream_llm_to_murf_and_client` (`main.py:170`):
skip falsy chunks, accumulate `full_text`, send each chunk to the client,
then to Murf; `failAt` counts the non-empty fragment whose Murf send
raises.  Returns the accumulated text, the client messages, and whether
the loop aborted with an exception. -/
def relaySend : List String → Option Nat → String × List ClientMsg × Bool
  | [], _ => ("", [], false)
  | c :: rest, failAt =>
      if c = "" then relaySend rest failAt
      else
        match failAt with
        | some 0 => (c, [ClientMsg.llm_chunk c], true)
        | some (n + 1) =>
            let r := relaySend rest (some n)
            (c ++ r.1, ClientMsg.llm_chunk c :: r.2.1, r.2.2)
        | none =>
            let r := relaySend rest none
            (c ++ r.1, ClientMsg.llm_chunk c :: r.2.1, r.2.2)

/-- Result of `stream_llm_to_murf_and_client`: the returned `full_text` and
the messages delivered to the client websocket. -/
structure RelayResult where
  fullText : String
  msgs : List ClientMsg
deriving DecidableEq

/-- `stream_llm_to_murf_and_client` (`main.py:118`): returns `""` when the
API key is missing (`main.py:128`); an exception from `websockets.connect`
is caught at `main.py:189` and the accumulated (empty) text returned;
otherwise the audio receiver and the text sender run, a send failure
aborts the sender (no `llm_end` is sent, the exception is caught at
`main.py:189`), and on the normal path `llm_end` is sent after the text
stream is exhausted. -/
def stream_llm_to_murf_and_client (frags : List String) (murf : MurfBehavior) :
    RelayResult :=
  if murf.apiKeyPresent = false then { fullText := "", msgs := [] }
  else if murf.connectOk = false then { fullText := "", msgs := [] }
  else
    let audioMsgs := audio_receiver murf.audioEvents
    let s := relaySend frags murf.sendFailsAt
    if s.2.2 then { fullText := s.1, msgs := audioMsgs ++ s.2.1 }
    else { fullText := s.1, msgs := audioMsgs ++ s.2.1 ++ [ClientMsg.llm_end] }

/-- One chunk of a Gemini streaming response: a text chunk (possibly empty,
modelling a chunk without usable text) or a function-call chunk
(`first_chunk.candidates[0].content.parts[0].function_call`,
`main.py:327`), carrying the tool name and the optional `city` argument. -/
inductive Chunk where
  | text (s : String)
  | functionCall (name : String) (city : Option String)
deriving DecidableEq

/-- Text of a chunk as extracted by the stream generators
(`main.py:354`, `main.py:367`): the `text` attribute, `""` when absent. -/
def chunkText : Chunk → String
  | Chunk.text s => s
  | Chunk.functionCall _ _ => ""

/-- Texts of a chunk stream, as yielded to the relay. -/
def textsOf (cs : List Chunk) : List String := cs.map chunkText

/-- Behaviour of the Gemini backend for one `process_transcript` call:
the outcome of the first `generate_content_async` call (`main.py:312`,
`Except.error` modelling a raised exception) and of the second one issued
after a tool round (`main.py:352`). -/
structure LLMBehavior where
  firstCall : Except Unit (List Chunk)
  secondCall : Except Unit (List Chunk)

/-- External-collaborator behaviour visible to one `process_transcript`
call: the language-model backend, the speech-synthesis backend, and the
result the weather tool returns (`get_current_weather`, which catches its
own network errors and always returns a dictionary). -/
structure StreamEnv where
  llm : LLMBehavior
  murf : MurfBehavior
  weatherResult : String

/-- Error detail sent by the streaming pipeline's exception handler,
`main.py:389`. -/
def genericStreamError : String :=
  "An unexpected error occurred while generating a response."

/-- Error detail sent when the LLM stream yields no chunk, `main.py:323`. -/
def emptyResponseError : String := "I received an empty response."

/-- The retraction step of the exception handler (`main.py:385`): pop the
last history entry when it is a user turn. -/
def retractUserIfLast (h : History) : History :=
  match h.getLast? with
  | some t => if t.role = Role.user then h.dropLast else h
  | none => h

/-- Result of one `process_transcript` call: the `is_listening` flag
afterwards, the history stored in `chat_histories[session_id]`
afterwards, and the messages sent to the client. -/
structure PTResult where
  listening : Bool
  stored : History
  msgs : List ClientMsg
deriving DecidableEq

/-- `process_transcript` (`main.py:274`): the final-transcript callback.
`stored` is `chat_histories[session_id]["history"]` before the call;
`durationSeconds` is the wall-clock duration of the generation calls — it
is never inspected because no timeout wraps this path in the source.
Stale transcripts (flag false) return immediately (`main.py:276`); the
flag is set false (`main.py:284`); the user turn is appended (mutating the
stored list, `main.py:295`) and the working history truncated
(`main.py:296`).  An empty stream sends an error and returns early,
skipping the session update at `main.py:393`, so the stored history is
the mutated, untruncated list.  A first-chunk function call appends the
model tool-request turn (`main.py:332`); the known tool appends the tool
turn (`main.py:342`) and re-invokes generation, an unknown tool is only
logged (`main.py:361`).  A raised generation pops the trailing user turn
if still last and sends the generic error (`main.py:383`).  A non-empty
relayed text appends the model turn (`main.py:379`). -/
def process_transcript (is_listening : Bool) (stored : History)
    (env : StreamEnv) (transcript_text : String) (durationSeconds : Nat) :
    PTResult :=
  if is_listening = false then
    { listening := is_listening, stored := stored, msgs := [] }
  else
    let msgs0 := [ClientMsg.user_transcript transcript_text]
    let afterAppend := stored ++ [⟨Role.user, Content.text transcript_text⟩]
    let history := manage_conversation_history afterAppend
    match env.llm.firstCall with
    | Except.error _ =>
        { listening := false,
          stored := retractUserIfLast history,
          msgs := msgs0 ++ [ClientMsg.error genericStreamError] }
    | Except.ok [] =>
        { listening := false,
          stored := afterAppend,
          msgs := msgs0 ++ [ClientMsg.error emptyResponseError] }
    | Except.ok (first :: rest) =>
        match first with
        | Chunk.functionCall name city =>
            let h1 := history ++ [⟨Role.model, Content.functionCall name city⟩]
            if name = "get_current_weather" then
              let h2 := h1 ++
                [⟨Role.tool,
                  Content.functionResponse "get_current_weather" env.weatherResult⟩]
              match env.llm.secondCall with
              | Except.error _ =>
                  { listening := false,
                    stored := retractUserIfLast h2,
                    msgs := msgs0 ++ [ClientMsg.error genericStreamError] }
              | Except.ok chunks2 =>
                  let r := stream_llm_to_murf_and_client (textsOf chunks2) env.murf
                  { listening := false,
                    stored :=
                      if r.fullText ≠ "" then
                        h2 ++ [⟨Role.model, Content.text r.fullText⟩]
                      else h2,
                    msgs := msgs0 ++ r.msgs }
            else
              { listening := false, stored := h1, msgs := msgs0 }
        | Chunk.text _ =>
            let r := stream_llm_to_murf_and_client (textsOf (first :: rest)) env.murf
            { listening := false,
              stored :=
                if r.fullText ≠ "" then
                  history ++ [⟨Role.model, Content.text r.fullText⟩]
                else history,
              msgs := msgs0 ++ r.msgs }

/-- Result of `generate_llm_response`: the streamed texts, or the
`HTTPException` it re-raises. -/
inductive GLRResult where
  | chunks (texts : List String)
  | httpError (status : Nat) (detail : String)
deriving DecidableEq

/-- `generate_llm_response` (`main.py:87`): the whole stream is wrapped in
`asyncio.timeout(timeout)` (`main.py:105`), so a backend run lasting
longer than `timeout` seconds raises `TimeoutError`, re-raised as a 504
with detail `"LLM service timeout"` (`main.py:112`); any other backend
exception becomes a 500 with detail `"LLM service failed"`
(`main.py:116`); otherwise the non-empty chunk texts are yielded. -/
def generate_llm_response (backend : Except Unit (List String))
    (durationSeconds : Nat) (timeout : Nat := API_TIMEOUT_SECONDS) : GLRResult :=
  if durationSeconds > timeout then GLRResult.httpError 504 "LLM service timeout"
  else
    match backend with
    | Except.error _ => GLRResult.httpError 500 "LLM service failed"
    | Except.ok texts => GLRResult.chunks (texts.filter (fun s => s ≠ ""))

/-- Keys of the `PERSONAS` dictionary (`persona.py`); the prompt texts are
abstracted to their keys, which is all the orchestration logic depends on. -/
def PERSONA_KEYS : List String :=
  ["default", "tsundere_librarian", "dungeon_master", "fae_matchmaker",
   "monkey_d_luffy", "mai_sakurajima"]

/-- `PERSONAS.get(persona_key, PERSONAS["default"])` (`main.py:407`),
with prompts abstracted to their keys. -/
def resolvePersona (key : String) : String :=
  if PERSONA_KEYS.contains key then key else "default"

/-- One entry of `chat_histories`: the stored history and the persona
prompt (abstracted to its key); `last_accessed` is not modelled. -/
structure SessionEntry where
  history : History
  persona_key : String
deriving DecidableEq

/-- The `chat_histories` module-level dictionary, as an association list. -/
abbrev Store := List (String × SessionEntry)

/-- Dictionary lookup in the store. -/
def storeGet (store : Store) (k : String) : Option SessionEntry :=
  match store.find? (fun p => p.1 = k) with
  | some p => some p.2
  | none => none

/-- Dictionary assignment in the store: replace an existing binding,
otherwise add one. -/
def storeSet (store : Store) (k : String) (v : SessionEntry) : Store :=
  if (store.find? (fun p => p.1 = k)).isSome then
    store.map (fun p => if p.1 = k then (k, v) else p)
  else store ++ [(k, v)]

/-- `config` handler's store update (`main.py:411`): create the entry with
an empty history when the id is unseen, otherwise only update the persona. -/
def configStoreUpdate (store : Store) (sid : String) (pkey : String) : Store :=
  match storeGet store sid with
  | none => storeSet store sid { history := [], persona_key := pkey }
  | some e => storeSet store sid { e with persona_key := pkey }

/-- Inbound websocket messages dispatched by the `main.py:398` handler:
`config` (with its optional `session_id` and `persona` fields), `audio`,
and `stop_recording`. -/
inductive InMsg where
  | config (session_id : Option String) (persona : Option String)
  | audioMsg (data : String)
  | stop_recording
deriving DecidableEq

/-- Observable actions of the connection handler on its resources: adapter
construction (`main.py:419`), adapter close (`transcriber.close()`,
`main.py:435` and `main.py:445`), feeding audio to the adapter
(`transcriber.stream_audio`, `main.py:428`), and closing the client
websocket with a code and reason (`main.py:402`). -/
inductive Event where
  | adapterCreated (id : Nat)
  | adapterClosed (id : Nat)
  | adapterFed (id : Nat) (data : String)
  | connClosed (code : Nat) (reason : String)
deriving DecidableEq

/-- Per-connection state of `websocket_endpoint` (`main.py:264`):
`session_id`, the current transcriber handle (adapter instances numbered
by a creation counter), and the `is_listening` flag. -/
structure ConnState where
  session_id : Option String
  transcriber : Option Nat
  is_listening : Bool
  nextAdapterId : Nat
deriving DecidableEq

/-- State at the top of `websocket_endpoint` (`main.py:264`). -/
def initConnState : ConnState :=
  { session_id := none, transcriber := none, is_listening := false,
    nextAdapterId := 0 }

/-- Result of handling one inbound message: the new connection state, the
new store, the emitted events, and whether the handler returned
(terminating the receive loop). -/
structure StepOut where
  state : ConnState
  store : Store
  events : List Event
  terminated : Bool
deriving DecidableEq

/-- One iteration of the `websocket_endpoint` receive loop
(`main.py:398` onward).  `config` with a missing or empty (falsy)
`session_id` closes the connection with code 1008 and returns
(`main.py:402`); a truthy id updates the store, sets `is_listening` true
(`main.py:416`) and constructs a fresh adapter (`main.py:419`) —
overwriting the `transcriber` variable without closing any previous
adapter.  `audio` feeds the adapter only when `is_listening` is true and
a transcriber exists (`main.py:426`), else it is silently ignored.
`stop_recording` sets `is_listening` false, closes the adapter if one
exists and clears the variable (`main.py:431`). -/
def websocket_step (st : ConnState) (store : Store) (m : InMsg) : StepOut :=
  match m with
  | InMsg.config sid persona =>
      if sid = none ∨ sid = some "" then
        { state := st, store := store,
          events := [Event.connClosed 1008 "Session ID is required"],
          terminated := true }
      else
        match sid with
        | some s =>
            let pkey := resolvePersona (persona.getD "default")
            { state :=
                { st with
                  session_id := some s,
                  is_listening := true,
                  transcriber := some st.nextAdapterId,
                  nextAdapterId := st.nextAdapterId + 1 },
              store := configStoreUpdate store s pkey,
              events := [Event.adapterCreated st.nextAdapterId],
              terminated := false }
        | none =>
            { state := st, store := store,
              events := [Event.connClosed 1008 "Session ID is required"],
              terminated := true }
  | InMsg.audioMsg data =>
      if st.is_listening then
        match st.transcriber with
        | some tid =>
            { state := st, store := store,
              events := [Event.adapterFed tid data], terminated := false }
        | none =>
            { state := st, store := store, events := [], terminated := false }
      else
        { state := st, store := store, events := [], terminated := false }
  | InMsg.stop_recording =>
      match st.transcriber with
      | some tid =>
          { state := { st with is_listening := false, transcriber := none },
            store := store, events := [Event.adapterClosed tid],
            terminated := false }
      | none =>
          { state := { st with is_listening := false, transcriber := none },
            store := store, events := [], terminated := false }

/-- The receive loop of `websocket_endpoint` over a finite inbound message
sequence (a disconnect ends the sequence); stops early when a step
returns. -/
def runMsgs : ConnState → Store → List InMsg → ConnState × Store × List Event
  | st, store, [] => (st, store, [])
  | st, store, m :: rest =>
      let o := websocket_step st store m
      if o.terminated then (o.state, o.store, o.events)
      else
        let r := runMsgs o.state o.store rest
        (r.1, r.2.1, o.events ++ r.2.2)

/-- `websocket_endpoint` (`main.py:259`): run the receive loop from the
initial state and an initially empty global store, then the
`finally` block (`main.py:443`) closes the transcriber if one is still
held, on every exit path. -/
def websocket_endpoint (msgs : List InMsg) : ConnState × Store × List Event :=
  let r := runMsgs initConnState [] msgs
  match r.1.transcriber with
  | some tid => (r.1, r.2.1, r.2.2 ++ [Event.adapterClosed tid])
  | none => r

/-- Number of `adapterClosed id` events in an event list. -/
def countClosed (id : Nat) (evs : List Event) : Nat :=
  (evs.filter (fun e => e = Event.adapterClosed id)).length

/-- Number of `adapterCreated id` events in an event list. -/
def countCreated (id : Nat) (evs : List Event) : Nat :=
  (evs.filter (fun e => e = Event.adapterCreated id)).length

/-- Whether a client message carries generated content (`llm_chunk`) or an
explicit error. -/
def isContentOrError : ClientMsg → Bool
  | ClientMsg.llm_chunk _ => true
  | ClientMsg.error _ => true
  | _ => false

/-- Whether an event is a close of the client connection. -/
def isConnClosed : Event → Bool
  | Event.connClosed _ _ => true
  | _ => false

/-- A Murf behaviour where everything succeeds and the backend sends one
final audio packet. -/
def murfAllOk : MurfBehavior :=
  { apiKeyPresent := true, connectOk := true, sendFailsAt := none,
    audioEvents := [AudioEvent.packet "QUJD" true] }

/-- A Murf behaviour where `websockets.connect` raises. -/
def murfNoConnect : MurfBehavior :=
  { apiKeyPresent := true, connectOk := false, sendFailsAt := none,
    audioEvents := [] }

/-- An environment whose model streams the single text chunk `"Hi"`. -/
def envPlainHi : StreamEnv :=
  { llm := { firstCall := Except.ok [Chunk.text "Hi"],
             secondCall := Except.ok [] },
    murf := murfAllOk, weatherResult := "sunny" }

/-- An environment whose model stream yields no chunks at all. -/
def envEmptyStream : StreamEnv :=
  { llm := { firstCall := Except.ok [], secondCall := Except.ok [] },
    murf := murfAllOk, weatherResult := "sunny" }

/-- An environment whose first generation call raises. -/
def envFirstFails : StreamEnv :=
  { llm := { firstCall := Except.error (), secondCall := Except.ok [] },
    murf := murfAllOk, weatherResult := "sunny" }

/-- An environment where the model requests the known weather tool and the
generation call issued after the tool round raises. -/
def envToolThenFail : StreamEnv :=
  { llm := { firstCall :=
               Except.ok [Chunk.functionCall "get_current_weather" (some "Jaipur")],
             secondCall := Except.error () },
    murf := murfAllOk, weatherResult := "sunny" }

/-- An environment where the model requests the known weather tool and the
second generation streams a text answer. -/
def envToolOk : StreamEnv :=
  { llm := { firstCall :=
               Except.ok [Chunk.functionCall "get_current_weather" (some "Jaipur")],
             secondCall := Except.ok [Chunk.text "It is sunny."] },
    murf := murfAllOk, weatherResult := "sunny" }

/-- An environment where the model requests a tool the orchestrator does
not know. -/
def envUnknownTool : StreamEnv :=
  { llm := { firstCall := Except.ok [Chunk.functionCall "web_search" none],
             secondCall := Except.ok [Chunk.text "unused"] },
    murf := murfAllOk, weatherResult := "sunny" }

/-- A fifty-turn history, exactly at the `MAX_HISTORY_LENGTH` bound. -/
def fiftyTurns : History := List.replicate 50 ⟨Role.user, Content.text "x"⟩

/-- Truncation never leaves more than `MAX_HISTORY_LENGTH` turns. -/
theorem manage_conversation_history_length_le (h : History) :
    (manage_conversation_history h).length ≤ MAX_HISTORY_LENGTH := by
  unfold manage_conversation_history
  split
  · rw [List.length_drop]
    omega
  · omega

/-- Truncation keeps the most recently appended turn as the last entry. -/
theorem manage_conversation_history_getLast (h : History) (u : Turn) :
    (manage_conversation_history (h ++ [u])).getLast? = some u := by
  unfold manage_conversation_history
  split
  · rw [List.drop_append_of_le_length (by simp [MAX_HISTORY_LENGTH]),
      List.getLast?_concat]
  · exact List.getLast?_concat _

/-- The retraction step pops the last entry when it is a user turn. -/
theorem retractUserIfLast_of_user {x : History} {u : Turn}
    (hx : x.getLast? = some u) (hu : u.role = Role.user) :
    retractUserIfLast x = x.dropLast := by
  unfold retractUserIfLast
  rw [hx]
  simp [hu]

/-- The retraction step leaves the history alone when the last entry is not
a user turn. -/
theorem retractUserIfLast_of_not_user {x : History} {u : Turn}
    (hx : x.getLast? = some u) (hu : ¬ u.role = Role.user) :
    retractUserIfLast x = x := by
  unfold retractUserIfLast
  rw [hx]
  simp [hu]

/-- The retraction step never lengthens the history. -/
theorem retractUserIfLast_length_le (x : History) :
    (retractUserIfLast x).length ≤ x.length := by
  unfold retractUserIfLast
  cases x.getLast? with
  | none => exact Nat.le_refl _
  | some t =>
      by_cases hu : t.role = Role.user
      · simp [hu]
      · simp [hu]

/-- Claim C8 (confirmed): an audio message arriving while the listening
flag is false, or while no transcriber exists, is dropped silently — the
adapter is not fed, no event is emitted, and neither the per-connection
state nor the session store changes. -/
theorem audio_dropped_silently_when_not_listening
    (st : ConnState) (store : Store) (d : String)
    (h : st.is_listening = false ∨ st.transcriber = none) :
    websocket_step st store (InMsg.audioMsg d) =
      { state := st, store := store, events := [], terminated := false } := by
  cases h with
  | inl h1 => simp [websocket_step, h1]
  | inr h2 =>
      cases hl : st.is_listening with
      | false => simp [websocket_step, hl]
      | true => simp [websocket_step, hl, h2]

/-- Witness for claim C8 at a concrete non-listening state. -/
theorem audio_dropped_silently_when_not_listening_witness :
    (initConnState.is_listening = false ∨ initConnState.transcriber = none) ∧
    websocket_step initConnState [] (InMsg.audioMsg "AAAA") =
      { state := initConnState, store := [], events := [], terminated := false } :=
  ⟨Or.inl rfl,
   audio_dropped_silently_when_not_listening initConnState [] "AAAA" (Or.inl rfl)⟩

/-- Claim C10 (confirmed): when the generation stream yields no fragments,
the orchestrator sends the transcript echo followed by an explicit error
message and returns without further processing, and the stored history is
the old history with the user turn still appended (not retracted, and not
truncated, because the early return skips the session update). -/
theorem empty_stream_sends_error_and_keeps_user_turn
    (stored : History) (env : StreamEnv) (t : String) (d : Nat)
    (h : env.llm.firstCall = Except.ok []) :
    process_transcript true stored env t d =
      { listening := false,
        stored := stored ++ [⟨Role.user, Content.text t⟩],
        msgs := [ClientMsg.user_transcript t,
                 ClientMsg.error emptyResponseError] } := by
  simp [process_transcript, h]

/-- Witness for claim C10 at a concrete empty-stream environment. -/
theorem empty_stream_sends_error_and_keeps_user_turn_witness :
    envEmptyStream.llm.firstCall = Except.ok [] ∧
    process_transcript true [] envEmptyStream "hello" 0 =
      { listening := false,
        stored := [⟨Role.user, Content.text "hello"⟩],
        msgs := [ClientMsg.user_transcript "hello",
                 ClientMsg.error emptyResponseError] } :=
  ⟨rfl, empty_stream_sends_error_and_keeps_user_turn [] envEmptyStream "hello" 0 rfl⟩

/-- Claim C1 (counterexample): after a successful Processing of a final
transcript, the orchestrator does not return to Listening — the
`listening` flag stays false. -/
theorem processing_does_not_return_to_listening_counterexample :
    ¬ ((process_transcript true [] envPlainHi "hello" 0).listening = true) := by
  decide

/-- Claim C1 (amended): after Processing of a final transcript completes —
whether the model turn was appended, the stream was empty, a tool was
unknown, or a failure was handled — the `listening` flag remains false on
every path; the only way it becomes true again is a subsequent `config`
message, so audio arriving after the turn is dropped rather than being
processed like the first utterance. -/
theorem processing_leaves_listening_false :
    (∀ (stored : History) (env : StreamEnv) (t : String) (d : Nat),
        (process_transcript true stored env t d).listening = false) ∧
    (∀ (st : ConnState) (store : Store) (d : String),
        st.is_listening = false →
        websocket_step st store (InMsg.audioMsg d) =
          { state := st, store := store, events := [], terminated := false }) := by
  constructor
  · intro stored env t d
    cases h : env.llm.firstCall with
    | error e => simp [process_transcript, h]
    | ok cs =>
        cases cs with
        | nil => simp [process_transcript, h]
        | cons first rest =>
            cases first with
            | text s => simp [process_transcript, h]
            | functionCall name city =>
                by_cases hn : name = "get_current_weather"
                · cases h2 : env.llm.secondCall with
                  | error e => simp [process_transcript, h, hn, h2]
                  | ok cs2 => simp [process_transcript, h, hn, h2]
                · simp [process_transcript, h, hn]
  · intro st store d h1
    simp [websocket_step, h1]

/-- Witness for the amended claim C1 at concrete inputs. -/
theorem processing_leaves_listening_false_witness :
    (process_transcript true [] envPlainHi "hello" 0).listening = false ∧
    websocket_step initConnState [] (InMsg.audioMsg "QUJD") =
      { state := initConnState, store := [], events := [], terminated := false } :=
  ⟨processing_leaves_listening_false.1 [] envPlainHi "hello" 0,
   processing_leaves_listening_false.2 initConnState [] "QUJD" rfl⟩

/-- Claim C2 (counterexample): a generation failure after a tool round —
the model tool-request turn and the tool turn are already appended — sends
the failure error to the client, yet the provisionally appended user turn
is still present in the stored history afterward. -/
theorem failed_generation_keeps_user_turn_after_tool_round :
    ClientMsg.error genericStreamError ∈
      (process_transcript true [] envToolThenFail "hello" 0).msgs ∧
    Turn.mk Role.user (Content.text "hello") ∈
      (process_transcript true [] envToolThenFail "hello" 0).stored := by
  decide

/-- Claim C2 (amended): the exception handler retracts the user turn only
when it is still the last history entry.  When the first generation call
itself raises, the user turn (last after the truncated append) is popped;
when the failure occurs after a tool round, the tool turn is last, so
nothing is popped and the user, model tool-request, and tool turns all
remain in the stored history. -/
theorem user_turn_retracted_only_when_last :
    (∀ (stored : History) (env : StreamEnv) (t : String) (d : Nat),
        env.llm.firstCall = Except.error () →
        (process_transcript true stored env t d).stored =
          (manage_conversation_history
            (stored ++ [⟨Role.user, Content.text t⟩])).dropLast) ∧
    (∀ (stored : History) (env : StreamEnv) (t : String) (d : Nat)
        (city : Option String) (rest : List Chunk),
        env.llm.firstCall =
          Except.ok (Chunk.functionCall "get_current_weather" city :: rest) →
        env.llm.secondCall = Except.error () →
        (process_transcript true stored env t d).stored =
          manage_conversation_history (stored ++ [⟨Role.user, Content.text t⟩]) ++
            [⟨Role.model, Content.functionCall "get_current_weather" city⟩,
             ⟨Role.tool,
              Content.functionResponse "get_current_weather" env.weatherResult⟩]) := by
  constructor
  · intro stored env t d h
    simp only [process_transcript, h]
    simp [retractUserIfLast_of_user
      (manage_conversation_history_getLast stored ⟨Role.user, Content.text t⟩) rfl]
  · intro stored env t d city rest h1 h2
    simp only [process_transcript, h1, h2]
    rw [retractUserIfLast_of_not_user (List.getLast?_concat _) (by simp)]
    simp

/-- Witness for the amended claim C2 at concrete inputs. -/
theorem user_turn_retracted_only_when_last_witness :
    (process_transcript true [] envFirstFails "hi" 0).stored =
      (manage_conversation_history ([] ++ [⟨Role.user, Content.text "hi"⟩])).dropLast ∧
    (process_transcript true [] envToolThenFail "hi" 0).stored =
      manage_conversation_history ([] ++ [⟨Role.user, Content.text "hi"⟩]) ++
        [⟨Role.model, Content.functionCall "get_current_weather" (some "Jaipur")⟩,
         ⟨Role.tool,
          Content.functionResponse "get_current_weather"
            envToolThenFail.weatherResult⟩] :=
  ⟨user_turn_retracted_only_when_last.1 [] envFirstFails "hi" 0 rfl,
   user_turn_retracted_only_when_last.2 [] envToolThenFail "hi" 0
     (some "Jaipur") [] rfl rfl⟩

/-- Whether a client message is an error notification. -/
def isErrorMsg : ClientMsg → Bool
  | ClientMsg.error _ => true
  | _ => false

/-- Claim C3 (counterexample): a generation lasting 100 seconds — far past
the 30-second bound the claim asserts — completes normally on the
streaming path: no error message of any kind reaches the client and the
generated output is committed to the stored history. -/
theorem long_generation_not_timed_out_counterexample :
    (process_transcript true [] envPlainHi "hello" 100).msgs.any isErrorMsg = false ∧
    (process_transcript true [] envPlainHi "hello" 100).stored =
      [⟨Role.user, Content.text "hello"⟩, ⟨Role.model, Content.text "Hi"⟩] := by
  decide

/-- Claim C3 (amended): no timeout bounds the generation triggered by a
final transcript on the streaming connection — its outcome is entirely
independent of the generation's wall-clock duration.  The fixed 30-second
bound with a timeout-indicating detail exists only in the
`generate_llm_response` helper, which the streaming path does not invoke:
there, a run longer than the timeout yields a 504 with detail
`"LLM service timeout"`. -/
theorem streaming_generation_has_no_timeout :
    (∀ (l : Bool) (stored : History) (env : StreamEnv) (t : String) (d1 d2 : Nat),
        process_transcript l stored env t d1 = process_transcript l stored env t d2) ∧
    (∀ (backend : Except Unit (List String)) (d : Nat),
        d > API_TIMEOUT_SECONDS →
        generate_llm_response backend d =
          GLRResult.httpError 504 "LLM service timeout") := by
  constructor
  · intro l stored env t d1 d2
    rfl
  · intro backend d h
    simp [generate_llm_response, h]

/-- Witness for the amended claim C3 at concrete inputs. -/
theorem streaming_generation_has_no_timeout_witness :
    process_transcript true [] envPlainHi "hello" 100 =
      process_transcript true [] envPlainHi "hello" 0 ∧
    generate_llm_response (Except.ok ["Hi"]) 31 =
      GLRResult.httpError 504 "LLM service timeout" :=
  ⟨streaming_generation_has_no_timeout.1 true [] envPlainHi "hello" 100 0,
   streaming_generation_has_no_timeout.2 (Except.ok ["Hi"]) 31 (by decide)⟩

/-- Claim C4 (counterexample): when the model requests an unknown tool,
the client receives only the transcript echo — no message carrying
generated content and no error message at all. -/
theorem unknown_tool_leaves_client_without_reply :
    (process_transcript true [] envUnknownTool "hello" 0).msgs =
      [ClientMsg.user_transcript "hello"] ∧
    (process_transcript true [] envUnknownTool "hello" 0).msgs.any
      isContentOrError = false := by
  decide

/-- Claim C4 (amended): a raised generation and an empty generation stream
do send the client an explicit error, but the unknown-tool path does not
respond at all: the orchestrator logs and skips the call and sends nothing
beyond the transcript echo, leaving the client with no reply for that
turn. -/
theorem client_reply_except_unknown_tool :
    (∀ (stored : History) (env : StreamEnv) (t : String) (d : Nat)
        (name : String) (city : Option String) (rest : List Chunk),
        env.llm.firstCall = Except.ok (Chunk.functionCall name city :: rest) →
        name ≠ "get_current_weather" →
        (process_transcript true stored env t d).msgs =
          [ClientMsg.user_transcript t]) ∧
    (∀ (stored : History) (env : StreamEnv) (t : String) (d : Nat),
        env.llm.firstCall = Except.error () →
        ClientMsg.error genericStreamError ∈
          (process_transcript true stored env t d).msgs) ∧
    (∀ (stored : History) (env : StreamEnv) (t : String) (d : Nat),
        env.llm.firstCall = Except.ok [] →
        ClientMsg.error emptyResponseError ∈
          (process_transcript true stored env t d).msgs) := by
  refine ⟨?_, ?_, ?_⟩
  · intro stored env t d name city rest h hn
    simp [process_transcript, h, hn]
  · intro stored env t d h
    simp [process_transcript, h]
  · intro stored env t d h
    simp [process_transcript, h]

/-- Witness for the amended claim C4 at concrete inputs. -/
theorem client_reply_except_unknown_tool_witness :
    (process_transcript true [] envUnknownTool "hey" 0).msgs =
      [ClientMsg.user_transcript "hey"] ∧
    ClientMsg.error genericStreamError ∈
      (process_transcript true [] envFirstFails "hey" 0).msgs ∧
    ClientMsg.error emptyResponseError ∈
      (process_transcript true [] envEmptyStream "hey" 0).msgs :=
  ⟨client_reply_except_unknown_tool.1 [] envUnknownTool "hey" 0
     "web_search" none [] rfl (by decide),
   client_reply_except_unknown_tool.2.1 [] envFirstFails "hey" 0 rfl,
   client_reply_except_unknown_tool.2.2 [] envEmptyStream "hey" 0 rfl⟩

/-- An `if` between two histories is bounded when both branches are. -/
theorem length_if_le {c : Prop} [Decidable c] {a b : History} {k : Nat}
    (ha : a.length ≤ k) (hb : b.length ≤ k) :
    (if c then a else b).length ≤ k := by
  split
  · exact ha
  · exact hb

/-- Claim C5 (counterexample): a tool-augmented turn starting from a
fifty-turn history leaves fifty-three turns in the stored history —
truncation happens only at the user-turn append, and the model
tool-request, tool, and model text turns are appended afterwards without
re-truncation. -/
theorem stored_history_exceeds_max_counterexample :
    (process_transcript true fiftyTurns envToolOk "weather?" 0).stored.length = 53 ∧
    MAX_HISTORY_LENGTH < 53 := by
  decide

/-- Claim C5 (amended): truncation is applied only after the user-turn
append, where it leaves at most `MAX_HISTORY_LENGTH` turns; the turns a
completed turn appends afterwards (model tool-request, tool result, model
text) are not re-truncated, so on every path that reaches the session
update the stored history is bounded by `MAX_HISTORY_LENGTH + 3`, not by
`MAX_HISTORY_LENGTH`.  (The empty-stream early return stores the
untruncated appended list and is excluded here.) -/
theorem stored_history_bounded_plus_three
    (stored : History) (env : StreamEnv) (t : String) (d : Nat)
    (h : env.llm.firstCall ≠ Except.ok []) :
    (process_transcript true stored env t d).stored.length ≤
      MAX_HISTORY_LENGTH + 3 := by
  have hm := manage_conversation_history_length_le
    (stored ++ [⟨Role.user, Content.text t⟩])
  cases hf : env.llm.firstCall with
  | error e =>
      simp only [process_transcript, hf]
      exact Nat.le_trans (retractUserIfLast_length_le _)
        (Nat.le_trans hm (Nat.le_add_right _ 3))
  | ok cs =>
      cases cs with
      | nil => exact absurd hf h
      | cons first rest =>
          cases first with
          | text s =>
              simp only [process_transcript, hf]
              apply length_if_le
              · simp only [List.length_append, List.length_singleton]
                omega
              · exact Nat.le_trans hm (Nat.le_add_right _ 3)
          | functionCall name city =>
              by_cases hn : name = "get_current_weather"
              · subst hn
                cases h2 : env.llm.secondCall with
                | error e =>
                    simp [process_transcript, hf, h2]
                    refine Nat.le_trans (retractUserIfLast_length_le _) ?_
                    simp only [List.length_append, List.length_singleton,
                      List.length_cons, List.length_nil]
                    omega
                | ok cs2 =>
                    simp [process_transcript, hf, h2]
                    apply length_if_le
                    · simp only [List.length_append, List.length_singleton,
                        List.length_cons, List.length_nil]
                      omega
                    · simp only [List.length_append, List.length_singleton,
                        List.length_cons, List.length_nil]
                      omega
              · simp [process_transcript, hf, hn]
                omega

/-- Witness for the amended claim C5 at a concrete tool-augmented turn. -/
theorem stored_history_bounded_plus_three_witness :
    (process_transcript true fiftyTurns envToolOk "weather?" 0).stored.length ≤
      MAX_HISTORY_LENGTH + 3 :=
  stored_history_bounded_plus_three fiftyTurns envToolOk "weather?" 0
    (by simp [envToolOk])

/-- When no send fails, the sender accumulates the concatenation of all
fragments. -/
theorem relaySend_none_fullText (frags : List String) :
    (relaySend frags none).1 = frags.foldr (fun a b => a ++ b) "" := by
  induction frags with
  | nil => rfl
  | cons c rest ih =>
      by_cases hc : c = ""
      · subst hc
        simp [relaySend, ih]
      · simp [relaySend, hc, ih]

/-- When no send fails, the sender finishes without an exception. -/
theorem relaySend_none_not_aborted (frags : List String) :
    (relaySend frags none).2.2 = false := by
  induction frags with
  | nil => rfl
  | cons c rest ih =>
      by_cases hc : c = ""
      · subst hc
        simp [relaySend, ih]
      · simp [relaySend, hc, ih]

/-- Claim C6 (counterexample): a failure to open the synthesis connection
loses the entire textual response — the relay returns `""`, not the
concatenated input text. -/
theorem relay_connect_failure_loses_text_counterexample :
    ¬ ((stream_llm_to_murf_and_client ["Hello"] murfNoConnect).fullText =
        "Hello") := by
  decide

/-- Claim C6 (amended): as long as the API key is present, the connection
opens, and no text send fails, the relay returns the full concatenated
text whatever the audio receiver observes — packets, a receive timeout, a
closed backend connection, or receive errors.  But when the API key is
missing or the connection cannot be opened, the relay returns `""` without
consuming the text stream, so those failures do lose the textual
response. -/
theorem relay_text_survives_audio_outcomes :
    (∀ (frags : List String) (evts : List AudioEvent),
        (stream_llm_to_murf_and_client frags
            { apiKeyPresent := true, connectOk := true, sendFailsAt := none,
              audioEvents := evts }).fullText =
          frags.foldr (fun a b => a ++ b) "") ∧
    (∀ (frags : List String) (murf : MurfBehavior),
        murf.apiKeyPresent = false ∨ murf.connectOk = false →
        stream_llm_to_murf_and_client frags murf =
          { fullText := "", msgs := [] }) := by
  constructor
  · intro frags evts
    simp only [stream_llm_to_murf_and_client]
    rw [if_neg (by simp), if_neg (by simp)]
    rw [relaySend_none_not_aborted]
    simp [relaySend_none_fullText]
  · intro frags murf h
    cases h with
    | inl h1 => simp [stream_llm_to_murf_and_client, h1]
    | inr h2 =>
        cases hk : murf.apiKeyPresent with
        | false => simp [stream_llm_to_murf_and_client, hk]
        | true => simp [stream_llm_to_murf_and_client, hk, h2]

/-- Witness for the amended claim C6 at concrete inputs, the audio side
timing out. -/
theorem relay_text_survives_audio_outcomes_witness :
    (stream_llm_to_murf_and_client ["Hel", "lo"]
        { apiKeyPresent := true, connectOk := true, sendFailsAt := none,
          audioEvents := [AudioEvent.timeout] }).fullText =
      ["Hel", "lo"].foldr (fun a b => a ++ b) "" ∧
    stream_llm_to_murf_and_client ["Hello"] murfNoConnect =
      { fullText := "", msgs := [] } :=
  ⟨relay_text_survives_audio_outcomes.1 ["Hel", "lo"] [AudioEvent.timeout],
   relay_text_survives_audio_outcomes.2 ["Hello"] murfNoConnect (Or.inr rfl)⟩

/-- Claim C9 (counterexample): a config message bearing the one-character
session id `"a"` — shorter than any minimum length beyond mere
non-emptiness — is not rejected: the connection is never closed with a
protocol error, the session id is stored, the orchestrator starts
listening, and an adapter is created. -/
theorem short_session_id_accepted_counterexample :
    (websocket_endpoint [InMsg.config (some "a") none]).2.2.any
      isConnClosed = false ∧
    (websocket_endpoint [InMsg.config (some "a") none]).1.session_id =
      some "a" ∧
    (websocket_endpoint [InMsg.config (some "a") none]).1.is_listening =
      true := by
  decide

/-- Claim C9 (amended): a config message is rejected — the connection is
closed with protocol-error code 1008 and the handler returns — exactly
when its session id is missing or empty; there is no minimum-length
check, so any non-empty session id, of any length, is accepted: the id
and resolved persona are stored, `listening` becomes true, and a fresh
adapter is created. -/
theorem config_rejects_exactly_missing_or_empty_id :
    (∀ (st : ConnState) (store : Store) (p : Option String),
        websocket_step st store (InMsg.config none p) =
          { state := st, store := store,
            events := [Event.connClosed 1008 "Session ID is required"],
            terminated := true }) ∧
    (∀ (st : ConnState) (store : Store) (p : Option String),
        websocket_step st store (InMsg.config (some "") p) =
          { state := st, store := store,
            events := [Event.connClosed 1008 "Session ID is required"],
            terminated := true }) ∧
    (∀ (st : ConnState) (store : Store) (p : Option String) (s : String),
        s ≠ "" →
        websocket_step st store (InMsg.config (some s) p) =
          { state :=
              { st with
                session_id := some s,
                is_listening := true,
                transcriber := some st.nextAdapterId,
                nextAdapterId := st.nextAdapterId + 1 },
            store := configStoreUpdate store s (resolvePersona (p.getD "default")),
            events := [Event.adapterCreated st.nextAdapterId],
            terminated := false }) := by
  refine ⟨?_, ?_, ?_⟩
  · intro st store p
    simp [websocket_step]
  · intro st store p
    simp [websocket_step]
  · intro st store p s hs
    simp [websocket_step, hs]

/-- Witness for the amended claim C9 at concrete inputs, including the
one-character id. -/
theorem config_rejects_exactly_missing_or_empty_id_witness :
    websocket_step initConnState [] (InMsg.config none none) =
      { state := initConnState, store := [],
        events := [Event.connClosed 1008 "Session ID is required"],
        terminated := true } ∧
    websocket_step initConnState [] (InMsg.config (some "a") none) =
      { state :=
          { initConnState with
            session_id := some "a",
            is_listening := true,
            transcriber := some initConnState.nextAdapterId,
            nextAdapterId := initConnState.nextAdapterId + 1 },
        store := configStoreUpdate [] "a" (resolvePersona "default"),
        events := [Event.adapterCreated initConnState.nextAdapterId],
        terminated := false } :=
  ⟨config_rejects_exactly_missing_or_empty_id.1 initConnState [] none,
   config_rejects_exactly_missing_or_empty_id.2.2 initConnState [] none "a"
     (by decide)⟩

/-- Close counts add over event-list concatenation. -/
theorem countClosed_append (id : Nat) (a b : List Event) :
    countClosed id (a ++ b) = countClosed id a + countClosed id b := by
  simp [countClosed, List.filter_append]

/-- An empty event list closes nothing. -/
theorem countClosed_nil (id : Nat) : countClosed id [] = 0 := rfl

/-- An adapter-creation event closes nothing. -/
theorem countClosed_singleton_created (id n : Nat) :
    countClosed id [Event.adapterCreated n] = 0 := by
  simp [countClosed]

/-- A connection-close event closes no adapter. -/
theorem countClosed_singleton_connClosed (id c : Nat) (r : String) :
    countClosed id [Event.connClosed c r] = 0 := by
  simp [countClosed]

/-- A feed event closes nothing. -/
theorem countClosed_singleton_fed (id n : Nat) (d : String) :
    countClosed id [Event.adapterFed n d] = 0 := by
  simp [countClosed]

/-- Closing an adapter counts once for that adapter. -/
theorem countClosed_singleton_closed_self (id : Nat) :
    countClosed id [Event.adapterClosed id] = 1 := by
  simp [countClosed]

/-- Closing another adapter does not count. -/
theorem countClosed_singleton_closed_ne (id t : Nat) (h : ¬ id = t) :
    countClosed id [Event.adapterClosed t] = 0 := by
  simp [countClosed]
  intro hc
  exact absurd hc.symm h

/-- Close counts split off the head event. -/
theorem countClosed_cons (id : Nat) (e : Event) (evs : List Event) :
    countClosed id (e :: evs) = countClosed id [e] + countClosed id evs := by
  have h := countClosed_append id [e] evs
  simpa using h

/-- The per-connection state after a valid config message (`main.py:416`
and `main.py:419`): listening, with a freshly created adapter. -/
def configState (st : ConnState) (s : String) : ConnState :=
  { st with
    session_id := some s,
    is_listening := true,
    transcriber := some st.nextAdapterId,
    nextAdapterId := st.nextAdapterId + 1 }

/-- The per-connection state after `stop_recording` (`main.py:431`): not
listening, transcriber variable cleared. -/
def stopState (st : ConnState) : ConnState :=
  { st with is_listening := false, transcriber := none }

/-- Close discipline of the receive loop: from a state whose transcriber
handle (if any) precedes the creation counter, (1) no adapter id is closed
more than once, (2) an adapter that is neither current nor yet to be
created is never closed, (3) the adapter current at loop exit has not been
closed during the loop, and (4) the adapter current at loop exit is either
the initial one or one created during the run. -/
theorem runMsgs_close_discipline (msgs : List InMsg) :
    ∀ (st : ConnState) (store : Store),
      (∀ j, st.transcriber = some j → j < st.nextAdapterId) →
      ∀ id : Nat,
        countClosed id (runMsgs st store msgs).2.2 ≤ 1 ∧
        (st.transcriber ≠ some id → id < st.nextAdapterId →
          countClosed id (runMsgs st store msgs).2.2 = 0) ∧
        ((runMsgs st store msgs).1.transcriber = some id →
          countClosed id (runMsgs st store msgs).2.2 = 0) ∧
        ((runMsgs st store msgs).1.transcriber = some id →
          st.transcriber = some id ∨ st.nextAdapterId ≤ id) := by
  induction msgs with
  | nil =>
      intro st store hinv id
      refine ⟨by simp [runMsgs, countClosed_nil], ?_, ?_, ?_⟩
      · intro _ _
        simp [runMsgs, countClosed_nil]
      · intro _
        simp [runMsgs, countClosed_nil]
      · intro h
        exact Or.inl h
  | cons m rest ih =>
      intro st store hinv id
      cases m with
      | config sid persona =>
          by_cases hc : sid = none ∨ sid = some ""
          · have hrun : runMsgs st store (InMsg.config sid persona :: rest) =
                (st, store, [Event.connClosed 1008 "Session ID is required"]) := by
              simp [runMsgs, websocket_step, hc]
            rw [hrun]
            refine ⟨by simp [countClosed_singleton_connClosed], ?_, ?_, ?_⟩
            · intro _ _
              simp [countClosed_singleton_connClosed]
            · intro _
              simp [countClosed_singleton_connClosed]
            · intro h
              exact Or.inl h
          · cases sid with
            | none => exact absurd (Or.inl rfl) hc
            | some s =>
                have hs : ¬ s = "" := by
                  intro hh
                  exact hc (Or.inr (by rw [hh]))
                have hrun : runMsgs st store (InMsg.config (some s) persona :: rest) =
                    ((runMsgs (configState st s)
                        (configStoreUpdate store s
                          (resolvePersona (persona.getD "default"))) rest).1,
                     (runMsgs (configState st s)
                        (configStoreUpdate store s
                          (resolvePersona (persona.getD "default"))) rest).2.1,
                     Event.adapterCreated st.nextAdapterId ::
                       (runMsgs (configState st s)
                          (configStoreUpdate store s
                            (resolvePersona (persona.getD "default"))) rest).2.2) := by
                  simp [runMsgs, websocket_step, hs, configState]
                have hinv' : ∀ j, (configState st s).transcriber = some j →
                    j < (configState st s).nextAdapterId := by
                  intro j hj
                  simp [configState] at hj
                  simp [configState]
                  omega
                obtain ⟨ih1, ih2, ih3, ih4⟩ := ih (configState st s)
                  (configStoreUpdate store s
                    (resolvePersona (persona.getD "default"))) hinv' id
                rw [hrun]
                refine ⟨?_, ?_, ?_, ?_⟩
                · rw [countClosed_cons, countClosed_singleton_created,
                    Nat.zero_add]
                  exact ih1
                · intro hne hlt
                  rw [countClosed_cons, countClosed_singleton_created,
                    Nat.zero_add]
                  apply ih2
                  · simp [configState]
                    omega
                  · simp [configState]
                    omega
                · intro h
                  rw [countClosed_cons, countClosed_singleton_created,
                    Nat.zero_add]
                  exact ih3 h
                · intro h
                  rcases ih4 h with hlft | hrgt
                  · simp [configState] at hlft
                    exact Or.inr (by omega)
                  · simp [configState] at hrgt
                    exact Or.inr (by omega)
      | audioMsg data =>
          cases hl : st.is_listening with
          | false =>
              have hrun : runMsgs st store (InMsg.audioMsg data :: rest) =
                  runMsgs st store rest := by
                simp [runMsgs, websocket_step, hl]
              rw [hrun]
              exact ih st store hinv id
          | true =>
              cases ht : st.transcriber with
              | none =>
                  have hrun : runMsgs st store (InMsg.audioMsg data :: rest) =
                      runMsgs st store rest := by
                    simp [runMsgs, websocket_step, hl, ht]
                  rw [hrun]
                  have ihx := ih st store hinv id
                  rw [ht] at ihx
                  exact ihx
              | some tid =>
                  have hrun : runMsgs st store (InMsg.audioMsg data :: rest) =
                      ((runMsgs st store rest).1, (runMsgs st store rest).2.1,
                       Event.adapterFed tid data ::
                         (runMsgs st store rest).2.2) := by
                    simp [runMsgs, websocket_step, hl, ht]
                  obtain ⟨ih1, ih2, ih3, ih4⟩ := ih st store hinv id
                  rw [ht] at ih2 ih4
                  rw [hrun]
                  refine ⟨?_, ?_, ?_, ?_⟩
                  · rw [countClosed_cons, countClosed_singleton_fed,
                      Nat.zero_add]
                    exact ih1
                  · intro hne hlt
                    rw [countClosed_cons, countClosed_singleton_fed,
                      Nat.zero_add]
                    exact ih2 hne hlt
                  · intro h
                    rw [countClosed_cons, countClosed_singleton_fed,
                      Nat.zero_add]
                    exact ih3 h
                  · intro h
                    exact ih4 h
      | stop_recording =>
          cases ht : st.transcriber with
          | none =>
              have hrun : runMsgs st store (InMsg.stop_recording :: rest) =
                  runMsgs (stopState st) store rest := by
                simp [runMsgs, websocket_step, ht, stopState]
              have hinv'' : ∀ j, (stopState st).transcriber = some j →
                  j < (stopState st).nextAdapterId := by
                intro j hj
                simp [stopState] at hj
              obtain ⟨ih1, ih2, ih3, ih4⟩ := ih (stopState st) store hinv'' id
              rw [hrun]
              refine ⟨ih1, ?_, ih3, ?_⟩
              · intro hne hlt
                apply ih2
                · simp [stopState]
                · simp [stopState]
                  exact hlt
              · intro h
                rcases ih4 h with hlft | hrgt
                · simp [stopState] at hlft
                · simp [stopState] at hrgt
                  exact Or.inr hrgt
          | some t =>
              have htlt : t < st.nextAdapterId := hinv t ht
              have hrun : runMsgs st store (InMsg.stop_recording :: rest) =
                  ((runMsgs (stopState st) store rest).1,
                   (runMsgs (stopState st) store rest).2.1,
                   Event.adapterClosed t ::
                     (runMsgs (stopState st) store rest).2.2) := by
                simp [runMsgs, websocket_step, ht, stopState]
              have hinv'' : ∀ j, (stopState st).transcriber = some j →
                  j < (stopState st).nextAdapterId := by
                intro j hj
                simp [stopState] at hj
              obtain ⟨ih1, ih2, ih3, ih4⟩ := ih (stopState st) store hinv'' id
              rw [hrun]
              refine ⟨?_, ?_, ?_, ?_⟩
              · by_cases hid : id = t
                · subst hid
                  rw [countClosed_cons, countClosed_singleton_closed_self]
                  have h0 : countClosed id
                      (runMsgs (stopState st) store rest).2.2 = 0 := by
                    apply ih2
                    · simp [stopState]
                    · simp [stopState]
                      exact htlt
                  omega
                · rw [countClosed_cons,
                    countClosed_singleton_closed_ne id t hid, Nat.zero_add]
                  exact ih1
              · intro hne hlt
                have hid : ¬ id = t := by
                  intro hh
                  subst hh
                  exact hne rfl
                rw [countClosed_cons,
                  countClosed_singleton_closed_ne id t hid, Nat.zero_add]
                apply ih2
                · simp [stopState]
                · simp [stopState]
                  exact hlt
              · intro h
                have hge : st.nextAdapterId ≤ id := by
                  rcases ih4 h with hlft | hrgt
                  · simp [stopState] at hlft
                  · simp [stopState] at hrgt
                    exact hrgt
                have hid : ¬ id = t := by omega
                rw [countClosed_cons,
                  countClosed_singleton_closed_ne id t hid, Nat.zero_add]
                exact ih3 h
              · intro h
                rcases ih4 h with hlft | hrgt
                · simp [stopState] at hlft
                · simp [stopState] at hrgt
                  exact Or.inr hrgt

/-- Claim C7 (counterexample): a second config message on the same
connection replaces the adapter reference without closing it — adapter 0
is created but is closed zero times over the whole connection lifetime
(only the replacing adapter 1 is closed, by the teardown). -/
theorem replaced_adapter_never_closed_counterexample :
    Event.adapterCreated 0 ∈
      (websocket_endpoint
        [InMsg.config (some "s1") none, InMsg.config (some "s1") none]).2.2 ∧
    countClosed 0
      (websocket_endpoint
        [InMsg.config (some "s1") none, InMsg.config (some "s1") none]).2.2 =
      0 := by
  decide

/-- Claim C7 (amended): over one connection lifetime no adapter is ever
closed twice, and the adapter still held when the handler exits is closed
exactly once by the teardown block; but an adapter replaced by a later
config message is never closed, so closure is at most once per created
adapter, not exactly once. -/
theorem adapter_closed_at_most_once :
    (∀ (msgs : List InMsg) (id : Nat),
        countClosed id (websocket_endpoint msgs).2.2 ≤ 1) ∧
    (∀ (msgs : List InMsg) (id : Nat),
        (websocket_endpoint msgs).1.transcriber = some id →
        countClosed id (websocket_endpoint msgs).2.2 = 1) := by
  have hbase : ∀ j, initConnState.transcriber = some j →
      j < initConnState.nextAdapterId := by
    intro j hj
    simp [initConnState] at hj
  constructor
  · intro msgs id
    obtain ⟨h1, h2, h3, h4⟩ :=
      runMsgs_close_discipline msgs initConnState [] hbase id
    cases htr : (runMsgs initConnState [] msgs).1.transcriber with
    | none =>
        have hend : websocket_endpoint msgs = runMsgs initConnState [] msgs := by
          simp [websocket_endpoint, htr]
        rw [hend]
        exact h1
    | some tid =>
        have hend : websocket_endpoint msgs =
            ((runMsgs initConnState [] msgs).1,
             (runMsgs initConnState [] msgs).2.1,
             (runMsgs initConnState [] msgs).2.2 ++
               [Event.adapterClosed tid]) := by
          simp [websocket_endpoint, htr]
        rw [hend]
        show countClosed id ((runMsgs initConnState [] msgs).2.2 ++
          [Event.adapterClosed tid]) ≤ 1
        rw [countClosed_append]
        by_cases hid : id = tid
        · subst hid
          rw [h3 htr, countClosed_singleton_closed_self]
        · rw [countClosed_singleton_closed_ne id tid hid]
          omega
  · intro msgs id h
    obtain ⟨h1, h2, h3, h4⟩ :=
      runMsgs_close_discipline msgs initConnState [] hbase id
    cases htr : (runMsgs initConnState [] msgs).1.transcriber with
    | none =>
        have hend : websocket_endpoint msgs = runMsgs initConnState [] msgs := by
          simp [websocket_endpoint, htr]
        rw [hend] at h
        rw [htr] at h
        exact Option.noConfusion h
    | some tid =>
        have hend : websocket_endpoint msgs =
            ((runMsgs initConnState [] msgs).1,
             (runMsgs initConnState [] msgs).2.1,
             (runMsgs initConnState [] msgs).2.2 ++
               [Event.adapterClosed tid]) := by
          simp [websocket_endpoint, htr]
        rw [hend] at h ⊢
        have hid : tid = id := by
          have h' : (runMsgs initConnState [] msgs).1.transcriber = some id := h
          rw [htr] at h'
          exact Option.some.inj h'
        subst hid
        show countClosed tid ((runMsgs initConnState [] msgs).2.2 ++
          [Event.adapterClosed tid]) = 1
        rw [countClosed_append, h3 htr, countClosed_singleton_closed_self]

/-- Witness for the amended claim C7: a run with one config and one
explicit stop closes adapter 0 exactly once, and the bound holds at a
concrete run that ends while still holding adapter 0. -/
theorem adapter_closed_at_most_once_witness :
    countClosed 0
      (websocket_endpoint [InMsg.config (some "abc1234567") none]).2.2 ≤ 1 ∧
    (websocket_endpoint [InMsg.config (some "abc1234567") none]).1.transcriber =
      some 0 ∧
    countClosed 0
      (websocket_endpoint [InMsg.config (some "abc1234567") none]).2.2 = 1 :=
  ⟨adapter_closed_at_most_once.1 [InMsg.config (some "abc1234567") none] 0,
   by decide,
   adapter_closed_at_most_once.2 [InMsg.config (some "abc1234567") none] 0
     (by decide)⟩

end VoiceAgent
